import Mathlib

/-
Verification development for the serial data-collection utility in
src/Lab 2 - Arduino DAQ/DataCollectionGUI.py (class SerialDataCollector).

The Python source is shallowly embedded below.  Conventions of the embedding:

* Python float arithmetic on the configuration fields is idealised as exact
  rational arithmetic over ℚ; Python int() truncation toward zero is `pyInt`.
* The serial connection is modelled as a trace of poll outcomes (`Ev`):
  `Ev.poll` is an iteration where no byte is waiting (or, in the steady-state
  loop, the sampling period has not yet elapsed), `Ev.readLine s` is an
  iteration whose readline returns the permissively decoded text `s`
  (decoding with replacement is total and never fails, so the payload is the
  decoded text), and `Ev.fail m` is an iteration where the read raises an
  exception with message `m`.
* The is_collecting flag is the function `act`: `act i` is the value the
  worker observes at its i-th loop-condition check.  The 5-second first-data
  window is abstracted to a poll budget `fuel` (its exact size never matters
  to the properties below).
* The timeout=1 read argument, the GUI widgets, progress display and the
  scheduling of callbacks onto the GUI thread are not modelled; the ordered
  list `RunResult.log` records connection open/close and the terminal
  callback, in program order, which is what the resource claims are about.
-/

namespace DAQ

/-- ASCII whitespace as removed by Python str.strip (space, tab, newline,
carriage return, vertical tab, form feed). -/
def isPyWs (c : Char) : Bool :=
  c.toNat = 32 || c.toNat = 9 || c.toNat = 10 || c.toNat = 13 || c.toNat = 11 || c.toNat = 12

/-- Model of Python str.strip(): drop whitespace from both ends
(DataCollectionGUI.py lines 269 and 296: readline().decode(...).strip()). -/
def pyStrip (s : String) : String :=
  String.mk (((s.data.dropWhile isPyWs).reverse.dropWhile isPyWs).reverse)

/-- Membership in Python string.printable: the ASCII range 32..126 plus the
whitespace controls 9..13 (digits, letters, punctuation and whitespace). -/
def printableChar (c : Char) : Bool :=
  (32 ≤ c.toNat && c.toNat ≤ 126) || (9 ≤ c.toNat && c.toNat ≤ 13)

/-- Model of SerialDataCollector.is_garbled (lines 361-367): an empty line is
garbled; otherwise the line is garbled when the share of printable
characters is below 0.7 (float arithmetic idealised over ℚ). -/
def is_garbled (line : String) : Bool :=
  if line.data.length = 0 then true
  else decide (((line.data.countP printableChar : ℚ) / (line.data.length : ℚ)) < 7 / 10)

/-- The garbled-first-line filter applied at save time (lines 386-389): the
first line is dropped exactly when it is garbled; all other lines are kept. -/
def data_to_save : List String → List String
  | [] => []
  | x :: xs => if is_garbled x then xs else x :: xs

/-- Helper for `pySplitComma`: accumulate the current field (reversed). -/
def splitCommaAux : List Char → List Char → List String
  | [], acc => [String.mk acc.reverse]
  | c :: rest, acc =>
    if c == ',' then String.mk acc.reverse :: splitCommaAux rest []
    else splitCommaAux rest (c :: acc)

/-- Model of Python str.split(",") as used by the CSV writer (line 393):
split on every literal comma; the empty string yields one empty field. -/
def pySplitComma (s : String) : List String := splitCommaAux s.data []

/-- Python int() applied to a real value: truncation toward zero. -/
def pyInt (q : ℚ) : ℤ := if q < 0 then Int.ceil q else Int.floor q

/-- The numeric configuration fields of a run after successful float()
parsing (start_collection, lines 211-212).  The device name, baud rate and
file name play no role in the numeric claims. -/
structure RawConfig where
  collection_time : ℚ
  sampling_period : ℚ

/-- Derived target count (line 213):
target_samples = int(collection_time * 1000 / sampling_period). -/
def target_samples (c : RawConfig) : ℤ :=
  pyInt (c.collection_time * 1000 / c.sampling_period)

/-- How start_collection can reject a configuration before starting a run:
`configError` is the "Number of samples must be greater than 0" message box
(line 217); `otherError` is the generic handler (line 244), reached e.g. when
sampling_period = 0 makes the division raise. -/
inductive StartError where
  | configError : StartError
  | otherError : StartError
  deriving DecidableEq

/-- The values handed to the worker thread when a run starts (line 236):
the derived target and num_samples = target + 1 (line 214). -/
structure RunParams where
  target : ℕ
  num_samples : ℕ
  deriving DecidableEq

/-- Model of start_collection (lines 202-239), numeric part: a zero sampling
period raises at the division and is caught by the generic handler; a
non-positive target is rejected with the config-error message box before any
serial I/O; otherwise the worker is started with target and target + 1.
Only an `Except.ok` outcome starts a run (thread creation, line 236) and only
the run opens the connection, so an error here happens before any I/O. -/
def start_collection (c : RawConfig) : Except StartError RunParams :=
  if c.sampling_period = 0 then Except.error StartError.otherError
  else
    if target_samples c ≤ 0 then Except.error StartError.configError
    else Except.ok ⟨(target_samples c).toNat, (target_samples c).toNat + 1⟩

/-- One poll outcome of the simulated serial connection (see header). -/
inductive Ev where
  | poll : Ev
  | readLine : String → Ev
  | fail : String → Ev
  deriving DecidableEq

/-- The stripped text a poll outcome contributes to data_list: a read whose
stripped text is non-empty contributes that text, everything else nothing. -/
def goodLine : Ev → Option String
  | Ev.poll => none
  | Ev.readLine s => if pyStrip s = "" then none else some (pyStrip s)
  | Ev.fail _ => none

/-- True for poll outcomes that do not raise. -/
def notFail : Ev → Bool
  | Ev.fail _ => false
  | _ => true

/-- Result of the first-line acquisition loop (lines 263-273):
`found line rest next` is the break with the first non-empty stripped line,
the unconsumed trace and the index of the next flag check; `noLine` is loop
exit with first_line still None (window elapsed or flag cleared);
`raised` is an exception escaping to the outer handler. -/
inductive P1Out where
  | found : String → List Ev → Nat → P1Out
  | noLine : Nat → List Ev → P1Out
  | raised : String → P1Out
  deriving DecidableEq

/-- The first-line acquisition loop (lines 263-273): while the window has
budget and is_collecting holds, poll; a read whose stripped text is
non-empty breaks out as first_line; an exhausted trace behaves as a silent
connection (no byte waiting). -/
def phase1 : Nat → List Ev → (Nat → Bool) → Nat → P1Out
  | 0, evs, _, i => P1Out.noLine i evs
  | fuel + 1, evs, act, i =>
    if act i then
      match evs with
      | [] => phase1 fuel [] act (i + 1)
      | Ev.poll :: rest => phase1 fuel rest act (i + 1)
      | Ev.readLine s :: rest =>
        if pyStrip s = "" then phase1 fuel rest act (i + 1)
        else P1Out.found (pyStrip s) rest (i + 1)
      | Ev.fail m :: _ => P1Out.raised m
    else P1Out.noLine i evs

/-- Result of the steady-state loop (lines 292-303): `exited` is normal loop
exit (count reached num_samples or flag cleared), `raised` an exception with
the data accumulated so far, `starved` a model artifact marking an exhausted
trace while the loop would still run (the source loop has no timeout and
would simply keep polling). -/
inductive P2Out where
  | exited : List String → P2Out
  | raised : String → List String → P2Out
  | starved : List String → P2Out
  deriving DecidableEq

/-- The steady-state collection loop (lines 292-303): while
len(data_list) < num_samples and is_collecting, a poll with an elapsed
sampling period and a waiting byte reads one line; a non-empty stripped
line is appended to data_list. -/
def phase2 : List Ev → (Nat → Bool) → Nat → List String → Nat → P2Out
  | [], act, i, data, num =>
    if decide (data.length < num) && act i then P2Out.starved data else P2Out.exited data
  | e :: rest, act, i, data, num =>
    if decide (data.length < num) && act i then
      match e with
      | Ev.poll => phase2 rest act (i + 1) data num
      | Ev.readLine s =>
        phase2 rest act (i + 1) (if pyStrip s = "" then data else data ++ [pyStrip s]) num
      | Ev.fail m => P2Out.raised m data
    else P2Out.exited data

/-- Projection of the accumulated data_list out of a steady-state outcome. -/
def p2data : P2Out → List String
  | P2Out.exited d => d
  | P2Out.raised _ d => d
  | P2Out.starved d => d

/-- How a collection run ends.  `completed` and `stoppedEarly` are the
collection_complete / collection_stopped callbacks (lines 308-311);
`connectionFailed` is the failed open (lines 252-259); `noDataTimeout` is the
"no incoming data" exit of the first-line loop (lines 274-281, also taken
when the run is stopped during that loop); `runtimeError` is the outer
exception handler (lines 313-320); `starvedModel` is the model artifact for
an exhausted trace (see P2Out.starved). -/
inductive FinReason where
  | completed : FinReason
  | stoppedEarly : FinReason
  | connectionFailed : FinReason
  | noDataTimeout : FinReason
  | runtimeError : FinReason
  | starvedModel : FinReason
  deriving DecidableEq

/-- Connection/callback actions of a run, in program order: the successful
open (line 253), the close of the connection (lines 275, 305, 315), and the
terminal callback or message box of the exit path. -/
inductive Act where
  | openSer : Act
  | closeSer : Act
  | finishCb : FinReason → Act
  deriving DecidableEq

/-- Everything observable about one finished run: the exit path taken, the
final data_list, the ordered open/close/callback actions, and whether the
steady-state loop was ever entered. -/
structure RunResult where
  reason : FinReason
  data : List String
  log : List Act
  entered2 : Bool
  deriving DecidableEq

/-- Model of collect_data (lines 248-320).  `openOk` is whether
serial.Serial(...) succeeds; `fuel` is the poll budget of the 5-second
first-data window; `events` is the connection trace; `act` is the
is_collecting flag as observed at each loop-condition check; `num_samples`
is target_samples + 1.  The first accepted line is appended before the
steady-state loop starts (line 284); the run completes when the accumulated
count reached num_samples and otherwise is treated as stopped (lines
308-311); the connection is closed before the terminal callback on every
exit path of an opened connection. -/
def collect_data (openOk : Bool) (fuel : Nat) (events : List Ev) (act : Nat → Bool)
    (num_samples : Nat) : RunResult :=
  if !openOk then
    ⟨FinReason.connectionFailed, [], [Act.finishCb FinReason.connectionFailed], false⟩
  else
    match phase1 fuel events act 0 with
    | P1Out.raised _ =>
      ⟨FinReason.runtimeError, [],
        [Act.openSer, Act.closeSer, Act.finishCb FinReason.runtimeError], false⟩
    | P1Out.noLine _ _ =>
      ⟨FinReason.noDataTimeout, [],
        [Act.openSer, Act.closeSer, Act.finishCb FinReason.noDataTimeout], false⟩
    | P1Out.found line rest i =>
      match phase2 rest act i [line] num_samples with
      | P2Out.raised _ d =>
        ⟨FinReason.runtimeError, d,
          [Act.openSer, Act.closeSer, Act.finishCb FinReason.runtimeError], true⟩
      | P2Out.starved d => ⟨FinReason.starvedModel, d, [Act.openSer], true⟩
      | P2Out.exited d =>
        if num_samples ≤ d.length then
          ⟨FinReason.completed, d,
            [Act.openSer, Act.closeSer, Act.finishCb FinReason.completed], true⟩
        else
          ⟨FinReason.stoppedEarly, d,
            [Act.openSer, Act.closeSer, Act.finishCb FinReason.stoppedEarly], true⟩

/-- A wall-clock instant as used by datetime.now().strftime (line 381). -/
structure PyDateTime where
  year : Nat
  month : Nat
  day : Nat
  hour : Nat
  minute : Nat
  second : Nat
  deriving DecidableEq

/-- The decimal digit character for a value below ten. -/
def digitChar10 : Nat → Char
  | 0 => '0'
  | 1 => '1'
  | 2 => '2'
  | 3 => '3'
  | 4 => '4'
  | 5 => '5'
  | 6 => '6'
  | 7 => '7'
  | 8 => '8'
  | _ => '9'

/-- Two-digit zero-padded decimal rendering, as produced by strftime for
fields below 100 (all calendar fields in practice). -/
def pad2 (n : Nat) : String :=
  if n < 100 then String.mk [digitChar10 (n / 10), digitChar10 (n % 10)]
  else Nat.repr n

/-- Four-digit zero-padded decimal rendering, as produced by strftime %Y for
years below 10000 (all datetime years). -/
def pad4 (n : Nat) : String :=
  if n < 10000 then
    String.mk [digitChar10 (n / 1000), digitChar10 (n / 100 % 10),
      digitChar10 (n / 10 % 10), digitChar10 (n % 10)]
  else Nat.repr n

/-- Model of datetime.now().strftime("%Y-%m-%d_%H-%M-%S") (line 381). -/
def timestampStr (t : PyDateTime) : String :=
  pad4 t.year ++ "-" ++ pad2 t.month ++ "-" ++ pad2 t.day ++ "_" ++
    pad2 t.hour ++ "-" ++ pad2 t.minute ++ "-" ++ pad2 t.second

/-- Decidable check that a string has the exact shape YYYY-MM-DD_HH-MM-SS. -/
def isTimestampShape (s : String) : Bool :=
  match s.data with
  | a :: b :: c :: d :: e :: f :: g :: h :: i2 :: j :: k :: l :: m :: n :: o :: p :: q :: r :: t :: [] =>
    a.isDigit && b.isDigit && c.isDigit && d.isDigit && (e == '-') &&
      f.isDigit && g.isDigit && (h == '-') && i2.isDigit && j.isDigit &&
      (k == '_') && l.isDigit && m.isDigit && (n == '-') && o.isDigit &&
      p.isDigit && (q == '-') && r.isDigit && t.isDigit
  | _ => false

/-- Index (from the right) helper: the last position where `p` holds. -/
def lastIdxWhere (p : Char → Bool) (cs : List Char) : Option Nat :=
  match List.findIdx? p cs.reverse with
  | none => none
  | some k => some (cs.length - 1 - k)

/-- Start of the basename: one past the last path separator. -/
def basenameStart (s : String) : Nat :=
  match lastIdxWhere (fun c => c == '/') s.data with
  | none => 0
  | some k => k + 1

/-- Index where the extension starts under os.path.splitext semantics: the
last dot of the basename that lies strictly after its run of leading dots
(so ".bashrc" and "..." have no extension); if there is none, the string
length (empty extension). -/
def extStart (s : String) : Nat :=
  match lastIdxWhere (fun c => c == '.') (s.data.drop (basenameStart s)) with
  | none => s.data.length
  | some k =>
    if ((s.data.drop (basenameStart s)).takeWhile (fun c => c == '.')).length ≤ k ∧ 1 ≤ k then
      basenameStart s + k
    else s.data.length

/-- Model of os.path.splitext(filename)[0] (line 379). -/
def splitextRoot (s : String) : String := String.mk (s.data.take (extStart s))

/-- Model of os.path.splitext(filename)[1] (line 379). -/
def splitextExt (s : String) : String := String.mk (s.data.drop (extStart s))

/-- Model of the collision handling in save_data_automatically (lines
377-383): if the configured filename already exists, insert an underscore
and the timestamp between root and extension; `fs` is the set of existing
file names. -/
def resolve_filename (filename : String) (fs : List String) (now : PyDateTime) : String :=
  if filename ∈ fs then
    splitextRoot filename ++ "_" ++ timestampStr now ++ splitextExt filename
  else filename

/-- Outcome of one save: the status bar text, and the written file (name and
CSV rows) when a write happened. -/
structure SaveResult where
  status : String
  written : Option (String × List (List String))
  deriving DecidableEq

/-- Model of save_data_automatically (lines 369-396).  `werr` carries the
message of an exception raised inside the try block (none = the write
succeeds).  With no data the method reports and returns before any file
handling; otherwise the write puts one row per retained line, each split on
commas; an exception is caught and reported as a status message only. -/
def save_data_automatically (data : List String) (filename : String) (fs : List String)
    (now : PyDateTime) (werr : Option String) : SaveResult :=
  if data = [] then ⟨"No data to save", none⟩
  else
    match werr with
    | none =>
      ⟨"Data saved to " ++ resolve_filename filename fs now,
        some ⟨resolve_filename filename fs now, (data_to_save data).map pySplitComma⟩⟩
    | some e => ⟨"Error saving data: " ++ e, none⟩

/-- Which exit paths invoke the persistence step: only collection_complete
(line 349) and collection_stopped (line 356) call save_data_automatically;
the connection-failure, no-data and exception paths of collect_data return
without saving. -/
def run_save (r : RunResult) (filename : String) (fs : List String) (now : PyDateTime)
    (werr : Option String) : Option SaveResult :=
  match r.reason with
  | FinReason.completed => some (save_data_automatically r.data filename fs now werr)
  | FinReason.stoppedEarly => some (save_data_automatically r.data filename fs now werr)
  | _ => none

/-- The collector state touched by save_data_automatically: the accumulated
data_list and the status bar text.  The method copies data_list
(data_to_save = self.data_list[:], line 387) and filters the copy; its only
writes are to the local copy and to status_var. -/
structure CState where
  data_list : List String
  status_var : String
  deriving DecidableEq

/-- save_data_automatically as a transformer of collector state: the new
state together with the written file, if any. -/
def save_step (s : CState) (filename : String) (fs : List String) (now : PyDateTime)
    (werr : Option String) : CState × Option (String × List (List String)) :=
  (⟨s.data_list, (save_data_automatically s.data_list filename fs now werr).status⟩,
    (save_data_automatically s.data_list filename fs now werr).written)

/-- Concatenating the two splitext halves gives back the original string. -/
theorem splitext_concat (s : String) : splitextRoot s ++ splitextExt s = s := by
  cases s with
  | mk d =>
    have h : splitextRoot ⟨d⟩ ++ splitextExt ⟨d⟩ =
        String.mk (d.take (extStart ⟨d⟩) ++ d.drop (extStart ⟨d⟩)) := rfl
    rw [h, List.take_append_drop]

/-- Every output of `digitChar10` is a decimal digit character. -/
theorem digitChar10_isDigit : ∀ k, (digitChar10 k).isDigit = true
  | 0 => rfl
  | 1 => rfl
  | 2 => rfl
  | 3 => rfl
  | 4 => rfl
  | 5 => rfl
  | 6 => rfl
  | 7 => rfl
  | 8 => rfl
  | _ + 9 => rfl

/-- Character data of `pad2` below 100. -/
theorem pad2_data (n : Nat) (h : n < 100) :
    (pad2 n).data = [digitChar10 (n / 10), digitChar10 (n % 10)] := by
  unfold pad2
  rw [if_pos h]

/-- Character data of `pad4` below 10000. -/
theorem pad4_data (n : Nat) (h : n < 10000) :
    (pad4 n).data = [digitChar10 (n / 1000), digitChar10 (n / 100 % 10),
      digitChar10 (n / 10 % 10), digitChar10 (n % 10)] := by
  unfold pad4
  rw [if_pos h]

/-- Character data of the strftime timestamp, for in-range datetime fields. -/
theorem timestampStr_data (t : PyDateTime) (hy : t.year < 10000) (hmo : t.month < 100)
    (hd : t.day < 100) (hh : t.hour < 100) (hmi : t.minute < 100) (hs : t.second < 100) :
    (timestampStr t).data =
      [digitChar10 (t.year / 1000), digitChar10 (t.year / 100 % 10),
        digitChar10 (t.year / 10 % 10), digitChar10 (t.year % 10), '-',
        digitChar10 (t.month / 10), digitChar10 (t.month % 10), '-',
        digitChar10 (t.day / 10), digitChar10 (t.day % 10), '_',
        digitChar10 (t.hour / 10), digitChar10 (t.hour % 10), '-',
        digitChar10 (t.minute / 10), digitChar10 (t.minute % 10), '-',
        digitChar10 (t.second / 10), digitChar10 (t.second % 10)] := by
  simp [timestampStr, String.data_append, pad4_data _ hy, pad2_data _ hmo, pad2_data _ hd,
    pad2_data _ hh, pad2_data _ hmi, pad2_data _ hs]

/-- The strftime timestamp has the shape YYYY-MM-DD_HH-MM-SS. -/
theorem timestampStr_shape (t : PyDateTime) (hy : t.year < 10000) (hmo : t.month < 100)
    (hd : t.day < 100) (hh : t.hour < 100) (hmi : t.minute < 100) (hs : t.second < 100) :
    isTimestampShape (timestampStr t) = true := by
  unfold isTimestampShape
  rw [timestampStr_data t hy hmo hd hh hmi hs]
  simp [digitChar10_isDigit]

/-- The strftime timestamp is 19 characters long, for in-range fields. -/
theorem timestampStr_length (t : PyDateTime) (hy : t.year < 10000) (hmo : t.month < 100)
    (hd : t.day < 100) (hh : t.hour < 100) (hmi : t.minute < 100) (hs : t.second < 100) :
    (timestampStr t).data.length = 19 := by
  rw [timestampStr_data t hy hmo hd hh hmi hs]
  simp

/-- With the flag always true, a trace of reads whose stripped texts are all
non-empty and exactly fill the remaining budget drives the steady-state loop
to a normal exit with every line appended in arrival order. -/
theorem phase2_reads_exit (act : Nat → Bool) (hact : ∀ j, act j = true) :
    ∀ (ls : List String) (i : Nat) (data : List String) (num : Nat),
      (∀ l ∈ ls, pyStrip l ≠ "") → data.length + ls.length = num →
      phase2 (ls.map Ev.readLine) act i data num = P2Out.exited (data ++ ls.map pyStrip) := by
  intro ls
  induction ls with
  | nil =>
    intro i data num _ hlen
    have hd : data.length = num := by simpa using hlen
    simp [phase2, hd]
  | cons l t ih =>
    intro i data num hne hlen
    have hlen2 : data.length + (t.length + 1) = num := by
      simpa using hlen
    have hlt : data.length < num := by omega
    have hcond : (decide (data.length < num) && act i) = true := by
      simp [hlt, hact i]
    have hl : pyStrip l ≠ "" := hne l (List.mem_cons_self l t)
    simp only [List.map_cons, phase2]
    rw [if_pos hcond]
    show phase2 (t.map Ev.readLine) act (i + 1)
      (if pyStrip l = "" then data else data ++ [pyStrip l]) num = _
    rw [if_neg hl]
    rw [ih (i + 1) (data ++ [pyStrip l]) num
      (fun x hx => hne x (List.mem_cons_of_mem l hx))
      (by simp only [List.length_append, List.length_cons, List.length_nil]; omega)]
    simp

/-- With the flag set to fail from check N on, a trace of reads whose
stripped texts are all non-empty and take the loop exactly to check N makes
the steady-state loop exit with those lines appended, short of the budget. -/
theorem phase2_stop_exit (N num : Nat) (hNnum : N < num) :
    ∀ (ls : List String) (i : Nat) (data : List String),
      (∀ l ∈ ls, pyStrip l ≠ "") → data.length = i → i + ls.length = N →
      phase2 (ls.map Ev.readLine) (fun j => decide (j < N)) i data num =
        P2Out.exited (data ++ ls.map pyStrip) := by
  intro ls
  induction ls with
  | nil =>
    intro i data _ hi hN
    have hiN : i = N := by simpa using hN
    have hnot : ¬ (i < N) := by omega
    simp [phase2, hnot]
  | cons l t ih =>
    intro i data hne hi hN
    have hN2 : i + (t.length + 1) = N := by simpa using hN
    have hiN : i < N := by omega
    have hlt : data.length < num := by omega
    have hcond : (decide (data.length < num) && decide (i < N)) = true := by
      simp [hlt, hiN]
    have hl : pyStrip l ≠ "" := hne l (List.mem_cons_self l t)
    simp only [List.map_cons, phase2]
    rw [if_pos hcond]
    show phase2 (t.map Ev.readLine) (fun j => decide (j < N)) (i + 1)
      (if pyStrip l = "" then data else data ++ [pyStrip l]) num = _
    rw [if_neg hl]
    rw [ih (i + 1) (data ++ [pyStrip l])
      (fun x hx => hne x (List.mem_cons_of_mem l hx))
      (by simp [hi]) (by omega)]
    simp

/-- A trace whose poll outcomes never contribute a line and never raise
leaves the first-line loop without a first line, whatever the window. -/
theorem phase1_no_good (act : Nat → Bool) (hact : ∀ j, act j = true) :
    ∀ (fuel : Nat) (evs : List Ev) (i : Nat),
      (∀ e ∈ evs, goodLine e = none ∧ notFail e = true) →
      ∃ j rest, phase1 fuel evs act i = P1Out.noLine j rest := by
  intro fuel
  induction fuel with
  | zero => intro evs i _; exact ⟨i, evs, rfl⟩
  | succ f ih =>
    intro evs i hno
    cases evs with
    | nil =>
      obtain ⟨j, rest, hrec⟩ := ih [] (i + 1) (by simp)
      exact ⟨j, rest, by simp [phase1, hact i, hrec]⟩
    | cons e rest =>
      cases e with
      | poll =>
        obtain ⟨j, r2, hrec⟩ := ih rest (i + 1)
          (fun x hx => hno x (List.mem_cons_of_mem _ hx))
        exact ⟨j, r2, by simp [phase1, hact i, hrec]⟩
      | readLine s =>
        have hg : goodLine (Ev.readLine s) = none := (hno _ (List.mem_cons_self _ _)).1
        have hs : pyStrip s = "" := by
          by_contra hne
          simp [goodLine, hne] at hg
        obtain ⟨j, r2, hrec⟩ := ih rest (i + 1)
          (fun x hx => hno x (List.mem_cons_of_mem _ hx))
        exact ⟨j, r2, by simp [phase1, hact i, hs, hrec]⟩
      | fail m =>
        have := (hno _ (List.mem_cons_self _ _)).2
        simp [notFail] at this

/-- Whatever the trace, flag and budgets, the steady-state loop only extends
the data it was given, and the extension is exactly the non-empty stripped
reads of the consumed part of the trace, in arrival order. -/
theorem phase2_filterMap (evs : List Ev) :
    ∀ (act : Nat → Bool) (i : Nat) (data : List String) (num : Nat),
      ∃ k, p2data (phase2 evs act i data num) = data ++ (evs.take k).filterMap goodLine := by
  induction evs with
  | nil =>
    intro act i data num
    refine ⟨0, ?_⟩
    simp only [phase2]
    split
    · simp [p2data]
    · simp [p2data]
  | cons e rest ih =>
    intro act i data num
    by_cases hc : (decide (data.length < num) && act i) = true
    · cases e with
      | poll =>
        obtain ⟨k, hk⟩ := ih act (i + 1) data num
        refine ⟨k + 1, ?_⟩
        simp only [phase2]
        rw [if_pos hc]
        show p2data (phase2 rest act (i + 1) data num) = _
        rw [hk]
        simp [goodLine]
      | readLine s =>
        by_cases hs : pyStrip s = ""
        · obtain ⟨k, hk⟩ := ih act (i + 1) data num
          refine ⟨k + 1, ?_⟩
          simp only [phase2]
          rw [if_pos hc]
          show p2data (phase2 rest act (i + 1)
            (if pyStrip s = "" then data else data ++ [pyStrip s]) num) = _
          rw [if_pos hs, hk]
          simp [goodLine, hs]
        · obtain ⟨k, hk⟩ := ih act (i + 1) (data ++ [pyStrip s]) num
          refine ⟨k + 1, ?_⟩
          simp only [phase2]
          rw [if_pos hc]
          show p2data (phase2 rest act (i + 1)
            (if pyStrip s = "" then data else data ++ [pyStrip s]) num) = _
          rw [if_neg hs, hk]
          simp [goodLine, hs]
      | fail m =>
        refine ⟨0, ?_⟩
        simp only [phase2]
        rw [if_pos hc]
        show p2data (P2Out.raised m data) = _
        simp [p2data]
    · refine ⟨0, ?_⟩
      simp only [phase2]
      rw [if_neg hc]
      simp [p2data]

/-- When the first-line loop breaks with a line, the consumed part of the
trace contributes exactly that line and the rest of the trace is returned. -/
theorem phase1_found_filterMap (act : Nat → Bool) :
    ∀ (fuel : Nat) (evs : List Ev) (i : Nat) (s : String) (rest : List Ev) (j : Nat),
      phase1 fuel evs act i = P1Out.found s rest j →
      ∃ k, rest = evs.drop k ∧ (evs.take k).filterMap goodLine = [s] := by
  intro fuel
  induction fuel with
  | zero => intro evs i s rest j h; simp [phase1] at h
  | succ f ih =>
    intro evs i s rest j h
    by_cases ha : act i = true
    · cases evs with
      | nil =>
        obtain ⟨k, _, hk2⟩ := ih [] (i + 1) s rest j (by simpa [phase1, ha] using h)
        simp at hk2
      | cons e t =>
        cases e with
        | poll =>
          obtain ⟨k, hk1, hk2⟩ := ih t (i + 1) s rest j (by simpa [phase1, ha] using h)
          exact ⟨k + 1, by simp [hk1], by simp [goodLine, hk2]⟩
        | readLine s0 =>
          by_cases hs : pyStrip s0 = ""
          · obtain ⟨k, hk1, hk2⟩ := ih t (i + 1) s rest j (by simpa [phase1, ha, hs] using h)
            exact ⟨k + 1, by simp [hk1], by simp [goodLine, hs, hk2]⟩
          · have h2 : P1Out.found (pyStrip s0) t (i + 1) = P1Out.found s rest j := by
              simpa [phase1, ha, hs] using h
            refine ⟨1, ?_, ?_⟩
            · have hrt : t = rest := by injection h2
              simp [hrt]
            · have hss : pyStrip s0 = s := by injection h2
              show List.filterMap goodLine [Ev.readLine s0] = [s]
              rw [← hss]
              simp [goodLine, hs]
        | fail m => simp [phase1, ha] at h
    · have hfalse : act i = false := by simpa using ha
      simp [phase1, hfalse] at h

/-- The data of a finished run is exactly the non-empty stripped reads of a
consumed initial part of the trace, in arrival order. -/
theorem collect_data_filterMap (openOk : Bool) (fuel : Nat) (evs : List Ev)
    (act : Nat → Bool) (num : Nat) :
    ∃ k, (collect_data openOk fuel evs act num).data = (evs.take k).filterMap goodLine := by
  cases openOk with
  | false => exact ⟨0, by simp [collect_data]⟩
  | true =>
    cases hp : phase1 fuel evs act 0 with
    | raised m => exact ⟨0, by simp [collect_data, hp]⟩
    | noLine j r => exact ⟨0, by simp [collect_data, hp]⟩
    | found s rest j =>
      obtain ⟨k1, hr, hfm⟩ := phase1_found_filterMap act fuel evs 0 s rest j hp
      obtain ⟨k2, h2⟩ := phase2_filterMap rest act j [s] num
      refine ⟨k1 + k2, ?_⟩
      have hdata : (collect_data true fuel evs act num).data =
          p2data (phase2 rest act j [s] num) := by
        cases hq : phase2 rest act j [s] num with
        | exited d =>
          by_cases hl : num ≤ d.length
          · simp [collect_data, hp, hq, hl, p2data]
          · simp [collect_data, hp, hq, hl, p2data]
        | raised m d => simp [collect_data, hp, hq, p2data]
        | starved d => simp [collect_data, hp, hq, p2data]
      rw [hdata, h2, hr, List.take_add, List.filterMap_append, hfm]

/-- Claim C5: the garbled classifier returns true exactly when the line is
empty or fewer than 70 percent of its characters are standard printable
characters; the normal comma-separated numeric line "12,34,56" is not
garbled; and at save time the first line is excluded exactly when it is
garbled while every other line is retained regardless of its content. -/
theorem c5_garbled_classifier :
    (∀ line : String, is_garbled line = true ↔
      (line = "" ∨
        (line.data.countP printableChar : ℚ) < 7 / 10 * (line.data.length : ℚ))) ∧
    is_garbled "12,34,56" = false ∧
    (∀ (l : String) (ls : List String),
      data_to_save (l :: ls) = if is_garbled l then ls else l :: ls) := by
  refine ⟨?_, ?_, fun l ls => rfl⟩
  · intro line
    by_cases h : line.data.length = 0
    · have hempty : line = "" := by
        cases line with
        | mk d =>
          have hd : d.length = 0 := h
          have hnil : d = [] := by simpa using hd
          rw [hnil]
      subst hempty
      simp [is_garbled]
    · have hne : line ≠ "" := by
        intro he
        subst he
        simp at h
      have hpos : (0 : ℚ) < (line.data.length : ℚ) := by
        exact_mod_cast Nat.pos_of_ne_zero h
      constructor
      · intro hg
        simp only [is_garbled, if_neg h] at hg
        exact Or.inr ((div_lt_iff₀ hpos).mp (of_decide_eq_true hg))
      · intro hor
        rcases hor with he | hlt
        · exact absurd he hne
        · simp only [is_garbled, if_neg h]
          exact decide_eq_true ((div_lt_iff₀ hpos).mpr hlt)
  · have h8 : "12,34,56".data.countP printableChar = 8 := by decide
    have hl : "12,34,56".data.length = 8 := by decide
    simp only [is_garbled, hl, h8]
    norm_num

/-- Claim C10: saving never mutates the accumulated line sequence - the
garbled filter works on a copy - so the state after a save has the same
data_list, and a second save operates on identical data, producing the same
outcome. -/
theorem c10_save_frame (s : CState) (filename : String) (fs : List String)
    (now : PyDateTime) (werr : Option String) :
    (save_step s filename fs now werr).1.data_list = s.data_list ∧
    save_step (save_step s filename fs now werr).1 filename fs now werr =
      save_step s filename fs now werr :=
  ⟨rfl, rfl⟩

/-- Claim C2 (amended): with a nonzero sampling period, the derived target
count is the truncation toward zero of duration * 1000 / period - which
equals the floor whenever duration and period are positive - and whenever
the target is non-positive, start_collection rejects the configuration with
the config error before any run (and hence any I/O) is started. -/
theorem c2_target_trunc_and_reject (c : RawConfig) (h : c.sampling_period ≠ 0) :
    (0 < c.collection_time → 0 < c.sampling_period →
      target_samples c = Int.floor (c.collection_time * 1000 / c.sampling_period)) ∧
    (target_samples c ≤ 0 → start_collection c = Except.error StartError.configError) := by
  constructor
  · intro hct hsp
    have hq : (0 : ℚ) ≤ c.collection_time * 1000 / c.sampling_period := by positivity
    unfold target_samples pyInt
    rw [if_neg (not_lt.mpr hq)]
  · intro ht
    unfold start_collection
    rw [if_neg h, if_pos ht]

/-- Witness for C2 at collection_time = 5, sampling_period = 4 (the source
defaults): the hypotheses hold and the theorem applies. -/
theorem c2_target_trunc_and_reject_witness :
    ((⟨5, 4⟩ : RawConfig).sampling_period ≠ 0) ∧
    ((0 < (⟨5, 4⟩ : RawConfig).collection_time → 0 < (⟨5, 4⟩ : RawConfig).sampling_period →
      target_samples ⟨5, 4⟩ =
        Int.floor ((⟨5, 4⟩ : RawConfig).collection_time * 1000 /
          (⟨5, 4⟩ : RawConfig).sampling_period)) ∧
    (target_samples ⟨5, 4⟩ ≤ 0 →
      start_collection ⟨5, 4⟩ = Except.error StartError.configError)) :=
  ⟨by show (4 : ℚ) ≠ 0; norm_num,
    c2_target_trunc_and_reject ⟨5, 4⟩ (by show (4 : ℚ) ≠ 0; norm_num)⟩

/-- Counterexample to claim C2 as stated: at collection_time = -1 (parsable
by float) and sampling_period = 3, the code computes int(-1000/3) = -333
(truncation toward zero) while the floor is -334, so the derived target does
not equal the floor of duration * 1000 / period. -/
theorem c2_floor_counterexample :
    target_samples ⟨-1, 3⟩ ≠ Int.floor ((-1 : ℚ) * 1000 / 3) := by
  have hceil : Int.ceil ((-1 : ℚ) * 1000 / 3) = -333 := by
    rw [Int.ceil_eq_iff]
    norm_num
  have hfloor : Int.floor ((-1 : ℚ) * 1000 / 3) = -334 := by
    rw [Int.floor_eq_iff]
    norm_num
  have htgt : target_samples ⟨-1, 3⟩ = -333 := by
    show pyInt ((-1 : ℚ) * 1000 / 3) = -333
    unfold pyInt
    rw [if_pos (by norm_num : ((-1 : ℚ) * 1000 / 3) < 0), hceil]
  rw [htgt, hfloor]
  decide

/-- Claim C8: when the configured target filename already exists, the writer
inserts the strftime timestamp, of shape YYYY-MM-DD_HH-MM-SS, between root
and extension; saving twice with the same configured name (not initially
present) writes the plain name first and the timestamped name second, two
distinct names, so neither file overwrites the other. -/
theorem c8_duplicate_name_timestamp (fname : String) (fs : List String)
    (d1 d2 : List String) (n1 n2 : PyDateTime)
    (h0 : fname ∉ fs) (h1 : d1 ≠ []) (h2 : d2 ≠ [])
    (hy : n2.year < 10000) (hmo : n2.month < 100) (hd : n2.day < 100)
    (hh : n2.hour < 100) (hmi : n2.minute < 100) (hs : n2.second < 100) :
    (save_data_automatically d1 fname fs n1 none).written =
      some ⟨fname, (data_to_save d1).map pySplitComma⟩ ∧
    (save_data_automatically d2 fname (fs ++ [fname]) n2 none).written =
      some ⟨splitextRoot fname ++ "_" ++ timestampStr n2 ++ splitextExt fname,
        (data_to_save d2).map pySplitComma⟩ ∧
    splitextRoot fname ++ "_" ++ timestampStr n2 ++ splitextExt fname ≠ fname ∧
    isTimestampShape (timestampStr n2) = true := by
  have hres1 : resolve_filename fname fs n1 = fname := by
    simp [resolve_filename, h0]
  have hmem : fname ∈ fs ++ [fname] := by simp
  have hres2 : resolve_filename fname (fs ++ [fname]) n2 =
      splitextRoot fname ++ "_" ++ timestampStr n2 ++ splitextExt fname := by
    simp [resolve_filename, hmem]
  refine ⟨?_, ?_, ?_, timestampStr_shape n2 hy hmo hd hh hmi hs⟩
  · simp [save_data_automatically, h1, hres1]
  · simp [save_data_automatically, h2, hres2]
  · intro heq
    have hlen := congrArg (fun s : String => s.data.length) heq
    have hsplit := congrArg (fun s : String => s.data.length) (splitext_concat fname)
    have hu : ("_" : String).data.length = 1 := rfl
    simp only [String.data_append, List.length_append] at hlen hsplit
    rw [timestampStr_length n2 hy hmo hd hh hmi hs, hu] at hlen
    omega

/-- Witness for C8 at the source default filename data.csv, an empty
directory and the instant 2024-01-02 03:04:05. -/
theorem c8_duplicate_name_timestamp_witness :
    (("data.csv" : String) ∉ ([] : List String) ∧ (["1,2"] : List String) ≠ [] ∧
      (["3,4"] : List String) ≠ []) ∧
    ((save_data_automatically ["1,2"] "data.csv" [] ⟨2024, 1, 2, 3, 4, 5⟩ none).written =
      some ⟨"data.csv", (data_to_save ["1,2"]).map pySplitComma⟩ ∧
    (save_data_automatically ["3,4"] "data.csv" ([] ++ ["data.csv"]) ⟨2024, 1, 2, 3, 4, 5⟩
        none).written =
      some ⟨splitextRoot "data.csv" ++ "_" ++ timestampStr ⟨2024, 1, 2, 3, 4, 5⟩ ++
          splitextExt "data.csv",
        (data_to_save ["3,4"]).map pySplitComma⟩ ∧
    splitextRoot "data.csv" ++ "_" ++ timestampStr ⟨2024, 1, 2, 3, 4, 5⟩ ++
        splitextExt "data.csv" ≠ "data.csv" ∧
    isTimestampShape (timestampStr ⟨2024, 1, 2, 3, 4, 5⟩) = true) :=
  ⟨⟨by decide, by decide, by decide⟩,
    c8_duplicate_name_timestamp "data.csv" [] ["1,2"] ["3,4"]
      ⟨2024, 1, 2, 3, 4, 5⟩ ⟨2024, 1, 2, 3, 4, 5⟩
      (by decide) (by decide) (by decide)
      (by decide) (by decide) (by decide) (by decide) (by decide) (by decide)⟩

/-- Claim C1: for a valid configuration (target at least 1) and a connection
supplying exactly target + 1 non-empty lines at or faster than the sampling
period, the run terminates with Completed because the accumulated count
reached target + 1, the data is exactly the stripped lines in order, and the
retained post-garbled-filter sequence has length target or target + 1
according to whether the first line was garbled. -/
theorem c1_completed_run (target fuel : Nat) (lines : List String) (act : Nat → Bool)
    (ht : 1 ≤ target) (hfuel : 1 ≤ fuel) (hlen : lines.length = target + 1)
    (hne : ∀ l ∈ lines, pyStrip l ≠ "") (hact : ∀ j, act j = true) :
    (collect_data true fuel (lines.map Ev.readLine) act (target + 1)).reason =
      FinReason.completed ∧
    (collect_data true fuel (lines.map Ev.readLine) act (target + 1)).data =
      lines.map pyStrip ∧
    (data_to_save (lines.map pyStrip)).length =
      if is_garbled (pyStrip (lines.headD "")) then target else target + 1 := by
  cases lines with
  | nil =>
    simp at hlen
  | cons l0 rest =>
    obtain ⟨f, rfl⟩ : ∃ f, fuel = f + 1 := ⟨fuel - 1, by omega⟩
    have hl0 : pyStrip l0 ≠ "" := hne l0 (List.mem_cons_self _ _)
    have hp1 : phase1 (f + 1) (Ev.readLine l0 :: rest.map Ev.readLine) act 0 =
        P1Out.found (pyStrip l0) (rest.map Ev.readLine) 1 := by
      simp [phase1, hact 0, hl0]
    have hrlen : rest.length = target := by simpa using hlen
    have hp2 : phase2 (rest.map Ev.readLine) act 1 [pyStrip l0] (target + 1) =
        P2Out.exited ([pyStrip l0] ++ rest.map pyStrip) :=
      phase2_reads_exit act hact rest 1 [pyStrip l0] (target + 1)
        (fun x hx => hne x (List.mem_cons_of_mem _ hx))
        (by simp only [List.length_cons, List.length_nil, hrlen]; omega)
    have hdlen : ([pyStrip l0] ++ rest.map pyStrip).length = target + 1 := by
      simp [hrlen]
    refine ⟨?_, ?_, ?_⟩
    · simp [collect_data, hp1, hp2, hdlen, hrlen]
    · simp [collect_data, hp1, hp2, hdlen, hrlen]
    · simp only [List.map_cons, List.headD_cons]
      by_cases hg : is_garbled (pyStrip l0) = true
      · simp [data_to_save, hg, hrlen]
      · have hg2 : is_garbled (pyStrip l0) = false := by simpa using hg
        simp [data_to_save, hg2, hrlen]

/-- Witness for C1: target 1, window budget 1, the two lines "h" and "5,6",
flag always true; the hypotheses hold and the theorem applies. -/
theorem c1_completed_run_witness :
    (1 ≤ 1 ∧ (["h", "5,6"] : List String).length = 1 + 1 ∧
      (∀ l ∈ (["h", "5,6"] : List String), pyStrip l ≠ "") ∧
      (∀ j : Nat, (fun _ : Nat => true) j = true)) ∧
    ((collect_data true 1 ((["h", "5,6"] : List String).map Ev.readLine) (fun _ => true)
        (1 + 1)).reason = FinReason.completed ∧
    (collect_data true 1 ((["h", "5,6"] : List String).map Ev.readLine) (fun _ => true)
        (1 + 1)).data = (["h", "5,6"] : List String).map pyStrip ∧
    (data_to_save ((["h", "5,6"] : List String).map pyStrip)).length =
      if is_garbled (pyStrip ((["h", "5,6"] : List String).headD "")) then 1 else 1 + 1) :=
  ⟨⟨by decide, by decide, by decide, fun _ => rfl⟩,
    c1_completed_run 1 1 ["h", "5,6"] (fun _ => true) (by decide) (by decide) (by decide)
      (by decide) (fun _ => rfl)⟩

/-- Claim C4: a connection that opens but never yields a non-empty line (and
never raises) within the first-data window, with the run never stopped,
makes the run end through the no-data path: reason NoDataTimeout, data still
empty, connection closed before the callback, and the steady-state phase
never entered. -/
theorem c4_no_data_timeout (fuel num : Nat) (evs : List Ev) (act : Nat → Bool)
    (hact : ∀ j, act j = true)
    (hno : ∀ e ∈ evs, goodLine e = none ∧ notFail e = true) :
    collect_data true fuel evs act num =
      ⟨FinReason.noDataTimeout, [],
        [Act.openSer, Act.closeSer, Act.finishCb FinReason.noDataTimeout], false⟩ := by
  obtain ⟨j, rest, hp⟩ := phase1_no_good act hact fuel evs 0 hno
  simp [collect_data, hp]

/-- Witness for C4: window budget 3, a silent poll and a whitespace-only
line, flag always true; the hypotheses hold and the theorem applies. -/
theorem c4_no_data_timeout_witness :
    ((∀ j : Nat, (fun _ : Nat => true) j = true) ∧
      (∀ e ∈ [Ev.poll, Ev.readLine " "], goodLine e = none ∧ notFail e = true)) ∧
    collect_data true 3 [Ev.poll, Ev.readLine " "] (fun _ => true) 5 =
      ⟨FinReason.noDataTimeout, [],
        [Act.openSer, Act.closeSer, Act.finishCb FinReason.noDataTimeout], false⟩ :=
  ⟨⟨fun _ => rfl, by decide⟩,
    c4_no_data_timeout 3 5 [Ev.poll, Ev.readLine " "] (fun _ => true)
      (fun _ => rfl) (by decide)⟩

/-- Claim C3 (amended): with the stop flag cleared at check N, a run
supplied N non-empty lines behaves as follows.  For 1 <= N < target + 1 the
run ends with StoppedEarly, the data is exactly the N stripped lines in
arrival order, and the save step persists the garbled-filtered lines, split
on commas, in original order.  For N = 0 - the stop happens during the
first-line acquisition phase - the run instead exits through the no-data
error path (the same path as NoDataTimeout) and nothing is saved. -/
theorem c3_stop_behaviour (N target fuel : Nat) (lines : List String)
    (fname : String) (fs : List String) (now : PyDateTime)
    (hfuel : 1 ≤ fuel) (hlen : lines.length = N) (hN : N < target + 1)
    (hne : ∀ l ∈ lines, pyStrip l ≠ "") :
    (N = 0 →
      collect_data true fuel (lines.map Ev.readLine) (fun j => decide (j < N)) (target + 1) =
        ⟨FinReason.noDataTimeout, [],
          [Act.openSer, Act.closeSer, Act.finishCb FinReason.noDataTimeout], false⟩ ∧
      run_save
        (collect_data true fuel (lines.map Ev.readLine) (fun j => decide (j < N))
          (target + 1)) fname fs now none = none) ∧
    (1 ≤ N →
      (collect_data true fuel (lines.map Ev.readLine) (fun j => decide (j < N))
        (target + 1)).reason = FinReason.stoppedEarly ∧
      (collect_data true fuel (lines.map Ev.readLine) (fun j => decide (j < N))
        (target + 1)).data = lines.map pyStrip ∧
      run_save
        (collect_data true fuel (lines.map Ev.readLine) (fun j => decide (j < N))
          (target + 1)) fname fs now none =
        some ⟨"Data saved to " ++ resolve_filename fname fs now,
          some ⟨resolve_filename fname fs now,
            (data_to_save (lines.map pyStrip)).map pySplitComma⟩⟩) := by
  constructor
  · intro h0
    subst h0
    have hnil : lines = [] := List.length_eq_zero.mp hlen
    subst hnil
    have hcd : collect_data true fuel (([] : List String).map Ev.readLine)
        (fun j => decide (j < 0)) (target + 1) =
        ⟨FinReason.noDataTimeout, [],
          [Act.openSer, Act.closeSer, Act.finishCb FinReason.noDataTimeout], false⟩ := by
      cases fuel with
      | zero => rfl
      | succ f => simp [collect_data, phase1]
    exact ⟨hcd, by rw [hcd]; rfl⟩
  · intro h1
    cases lines with
    | nil =>
      simp at hlen
      omega
    | cons l0 rest =>
      obtain ⟨f, rfl⟩ : ∃ f, fuel = f + 1 := ⟨fuel - 1, by omega⟩
      have h0N : 0 < N := h1
      have hl0 : pyStrip l0 ≠ "" := hne l0 (List.mem_cons_self _ _)
      have hp1 : phase1 (f + 1) (Ev.readLine l0 :: rest.map Ev.readLine)
          (fun j => decide (j < N)) 0 =
          P1Out.found (pyStrip l0) (rest.map Ev.readLine) 1 := by
        simp [phase1, hl0, h0N]
      have hrlen : rest.length + 1 = N := by simpa using hlen
      have hp2 : phase2 (rest.map Ev.readLine) (fun j => decide (j < N)) 1 [pyStrip l0]
          (target + 1) = P2Out.exited ([pyStrip l0] ++ rest.map pyStrip) :=
        phase2_stop_exit N (target + 1) hN rest 1 [pyStrip l0]
          (fun x hx => hne x (List.mem_cons_of_mem _ hx))
          (by simp) (by omega)
      have hdlen : ([pyStrip l0] ++ rest.map pyStrip).length = N := by
        simp only [List.length_append, List.length_map, List.length_cons, List.length_nil]
        omega
      have hlt : ¬ (target + 1 ≤ ([pyStrip l0] ++ rest.map pyStrip).length) := by
        rw [hdlen]
        omega
      have hcd : collect_data true (f + 1) ((l0 :: rest).map Ev.readLine)
          (fun j => decide (j < N)) (target + 1) =
          ⟨FinReason.stoppedEarly, [pyStrip l0] ++ rest.map pyStrip,
            [Act.openSer, Act.closeSer, Act.finishCb FinReason.stoppedEarly], true⟩ := by
        simp [collect_data, hp1, hp2, hlt]
        omega
      refine ⟨by rw [hcd], by rw [hcd]; simp, ?_⟩
      rw [hcd]
      show some (save_data_automatically ([pyStrip l0] ++ rest.map pyStrip) fname fs now none)
        = _
      have hd : ([pyStrip l0] ++ rest.map pyStrip) ≠ [] := by simp
      simp [save_data_automatically, hd]

/-- Witness for C3: N = 2 lines "a" and "b", target 3, window budget 1, the
source default filename, an empty directory; the hypotheses hold and the
theorem applies. -/
theorem c3_stop_behaviour_witness :
    (1 ≤ 1 ∧ (["a", "b"] : List String).length = 2 ∧ 2 < 3 + 1 ∧
      (∀ l ∈ (["a", "b"] : List String), pyStrip l ≠ "")) ∧
    ((2 = 0 →
      collect_data true 1 ((["a", "b"] : List String).map Ev.readLine)
          (fun j => decide (j < 2)) (3 + 1) =
        ⟨FinReason.noDataTimeout, [],
          [Act.openSer, Act.closeSer, Act.finishCb FinReason.noDataTimeout], false⟩ ∧
      run_save
        (collect_data true 1 ((["a", "b"] : List String).map Ev.readLine)
          (fun j => decide (j < 2)) (3 + 1))
        "data.csv" [] ⟨2024, 1, 2, 3, 4, 5⟩ none = none) ∧
    (1 ≤ 2 →
      (collect_data true 1 ((["a", "b"] : List String).map Ev.readLine)
        (fun j => decide (j < 2)) (3 + 1)).reason = FinReason.stoppedEarly ∧
      (collect_data true 1 ((["a", "b"] : List String).map Ev.readLine)
        (fun j => decide (j < 2)) (3 + 1)).data = (["a", "b"] : List String).map pyStrip ∧
      run_save
        (collect_data true 1 ((["a", "b"] : List String).map Ev.readLine)
          (fun j => decide (j < 2)) (3 + 1))
        "data.csv" [] ⟨2024, 1, 2, 3, 4, 5⟩ none =
        some ⟨"Data saved to " ++ resolve_filename "data.csv" [] ⟨2024, 1, 2, 3, 4, 5⟩,
          some ⟨resolve_filename "data.csv" [] ⟨2024, 1, 2, 3, 4, 5⟩,
            (data_to_save ((["a", "b"] : List String).map pyStrip)).map pySplitComma⟩⟩)) :=
  ⟨⟨by decide, by decide, by decide, by decide⟩,
    c3_stop_behaviour 2 3 1 ["a", "b"] "data.csv" [] ⟨2024, 1, 2, 3, 4, 5⟩
      (by decide) (by decide) (by decide) (by decide)⟩

/-- Counterexample to claim C3 as stated: a run stopped externally during
the first-line acquisition phase (after N = 0 lines, stop observed at check
2, target + 1 = 4) terminates through the no-data error path, not with
StoppedEarly, and nothing is persisted. -/
theorem c3_phase1_stop_counterexample :
    (collect_data true 5 [Ev.poll, Ev.poll, Ev.poll] (fun j => decide (j < 2)) 4).reason =
      FinReason.noDataTimeout ∧
    FinReason.noDataTimeout ≠ FinReason.stoppedEarly ∧
    run_save (collect_data true 5 [Ev.poll, Ev.poll, Ev.poll] (fun j => decide (j < 2)) 4)
      "data.csv" [] ⟨2024, 1, 2, 3, 4, 5⟩ none = none :=
  ⟨by decide, by decide, by decide⟩

/-- Claim C6 (amended): the persistence step is invoked exactly after runs
finishing with Completed or StoppedEarly; when invoked with an exception in
the write, it returns normally with an error status message and writes
nothing (and with no data it reports without touching any file); when
invoked successfully on non-empty data it writes the filtered rows. -/
theorem c6_save_invocation :
    (∀ (r : RunResult) (fname : String) (fs : List String) (now : PyDateTime)
        (werr : Option String),
      (run_save r fname fs now werr).isSome ↔
        (r.reason = FinReason.completed ∨ r.reason = FinReason.stoppedEarly)) ∧
    (∀ (data : List String) (fname : String) (fs : List String) (now : PyDateTime)
        (e : String),
      save_data_automatically data fname fs now (some e) =
        if data = [] then ⟨"No data to save", none⟩
        else ⟨"Error saving data: " ++ e, none⟩) ∧
    (∀ (x : String) (data : List String) (fname : String) (fs : List String)
        (now : PyDateTime),
      (save_data_automatically (x :: data) fname fs now none).written =
        some ⟨resolve_filename fname fs now, (data_to_save (x :: data)).map pySplitComma⟩) := by
  refine ⟨?_, ?_, ?_⟩
  · intro r fname fs now werr
    cases hr : r.reason <;> simp [run_save, hr]
  · intro data fname fs now e
    by_cases hd : data = []
    · simp [save_data_automatically, hd]
    · simp [save_data_automatically, hd]
  · intro x data fname fs now
    simp [save_data_automatically]

/-- Counterexample to claim C6 as stated: a run that ends with RuntimeError
after collecting the line "a" (the second read raises) has non-empty data,
yet no save is attempted on that exit path. -/
theorem c6_runtime_error_no_save_counterexample :
    (collect_data true 1 [Ev.readLine "a", Ev.fail "boom"] (fun _ => true) 3).reason =
      FinReason.runtimeError ∧
    (collect_data true 1 [Ev.readLine "a", Ev.fail "boom"] (fun _ => true) 3).data = ["a"] ∧
    (collect_data true 1 [Ev.readLine "a", Ev.fail "boom"] (fun _ => true) 3).data ≠ [] ∧
    run_save (collect_data true 1 [Ev.readLine "a", Ev.fail "boom"] (fun _ => true) 3)
      "data.csv" [] ⟨2024, 1, 2, 3, 4, 5⟩ none = none :=
  ⟨by decide, by decide, by decide, by decide⟩

/-- Claim C7: on every exit path of a run that is a real exit of the source
loop (every reason except the model artifact for an exhausted trace), if the
connection was opened then the action log is exactly open, close, terminal
callback - so the connection is closed, and the handle released, before the
finish or error callback fires. -/
theorem c7_close_before_callback (openOk : Bool) (fuel num : Nat) (evs : List Ev)
    (act : Nat → Bool)
    (h1 : (collect_data openOk fuel evs act num).reason ≠ FinReason.starvedModel)
    (h2 : Act.openSer ∈ (collect_data openOk fuel evs act num).log) :
    (collect_data openOk fuel evs act num).log =
      [Act.openSer, Act.closeSer,
        Act.finishCb (collect_data openOk fuel evs act num).reason] := by
  cases openOk with
  | false => simp [collect_data] at h2
  | true =>
    cases hp : phase1 fuel evs act 0 with
    | raised m => simp [collect_data, hp]
    | noLine j r => simp [collect_data, hp]
    | found s rest j =>
      cases hq : phase2 rest act j [s] num with
      | raised m d => simp [collect_data, hp, hq]
      | starved d =>
        exfalso
        apply h1
        simp [collect_data, hp, hq]
      | exited d =>
        by_cases hl : num ≤ d.length
        · simp [collect_data, hp, hq, hl]
        · simp [collect_data, hp, hq, hl]

/-- Witness for C7: an opened connection with an empty window budget, which
exits through the no-data path; the hypotheses hold and the theorem
applies. -/
theorem c7_close_before_callback_witness :
    ((collect_data true 0 [] (fun _ => true) 0).reason ≠ FinReason.starvedModel ∧
      Act.openSer ∈ (collect_data true 0 [] (fun _ => true) 0).log) ∧
    (collect_data true 0 [] (fun _ => true) 0).log =
      [Act.openSer, Act.closeSer,
        Act.finishCb (collect_data true 0 [] (fun _ => true) 0).reason] :=
  ⟨⟨by decide, by decide⟩,
    c7_close_before_callback true 0 0 [] (fun _ => true) (by decide) (by decide)⟩

/-- Claim C9: the accumulated line sequence never shrinks - from any loop
state the steady-state loop only appends to the data it was given - and for
any finished run the data is exactly the non-empty stripped reads of the
consumed initial segment of the trace: one entry per read, in arrival
order, with no reordering and no deduplication. -/
theorem c9_append_only_trace :
    (∀ (evs : List Ev) (act : Nat → Bool) (i : Nat) (data : List String) (num : Nat),
      ∃ k, p2data (phase2 evs act i data num) = data ++ (evs.take k).filterMap goodLine) ∧
    (∀ (openOk : Bool) (fuel : Nat) (evs : List Ev) (act : Nat → Bool) (num : Nat),
      ∃ k, (collect_data openOk fuel evs act num).data = (evs.take k).filterMap goodLine) :=
  ⟨fun evs act i data num => phase2_filterMap evs act i data num,
    fun openOk fuel evs act num => collect_data_filterMap openOk fuel evs act num⟩

end DAQ
